import Mathlib

/-!
Shallow embedding of the OAuth 2.0 token-lifecycle client implemented by the
class `GoogleClassroomClient` in `src/api/gcr.js`: token persistence, expiry
checking, the OAuth callback handler, refresh-token exchange, and the
authenticated request dispatcher with its single 401 retry.

Network interactions (token-endpoint exchanges and outbound API calls) are
supplied explicitly as `Except` parameters; the mutable state (the instance
fields `accessToken` / `refreshToken` / `tokenExpiry`, the three
`localStorage` entries, and the `sessionStorage` OAuth nonce) is threaded
explicitly through every operation.  Times are milliseconds since the epoch,
as returned by `Date.now()`.
-/

namespace Gcr

/-- JavaScript truthiness of a nullable string: `null` / `undefined` (here
`none`) and the empty string are falsy. -/
def truthy : Option String → Bool
  | none => false
  | some s => s ≠ ""

/-- JavaScript `a || b` on nullable strings. -/
def jsOr (a b : Option String) : Option String :=
  if truthy a then a else b

/-- The three `localStorage` entries (`gcr_access_token`, `gcr_refresh_token`,
`gcr_token_expiry`).  The expiry is persisted as a string, exactly as
`localStorage` stores it. -/
structure Storage where
  access : Option String
  refresh : Option String
  expiry : Option String
  deriving Repr, DecidableEq

/-- The full mutable state of a `GoogleClassroomClient` instance: the three
in-memory token fields, the mirrored `localStorage` entries, and the
`sessionStorage` entry `oauth_state` holding the CSRF nonce. -/
structure ClientState where
  accessToken : Option String
  refreshToken : Option String
  tokenExpiry : Option Nat
  storage : Storage
  oauthState : Option String
  deriving Repr, DecidableEq

/-- The data carried by a rejected `axios` call: the HTTP status of
`error.response` (`none` when the request got no response at all), the
optional fields of `error.response.data` that the various `catch` blocks
read, and `error.message`. -/
structure HttpFailure where
  status : Option Nat
  error_description : Option String
  errorField : Option String
  errorMessage : Option String
  dataMessage : Option String
  message : String
  deriving Repr, DecidableEq

/-- A successful token-endpoint response body
`\x7baccess_token, refresh_token?, expires_in\x7d`. -/
structure TokenResponse where
  access_token : String
  refresh_token : Option String
  expires_in : Nat
  deriving Repr, DecidableEq

/-- The error taxonomy of the client.  Each constructor corresponds to one
`throw new Error(...)` site in `src/api/gcr.js`; `renderMessage` below
recovers the exact message string each site builds. -/
inductive GcrError where
  | csrfMismatch
  | tokenExchangeFailed (detail : String)
  | noRefreshToken
  | refreshFailed (detail : String)
  | notAuthorized
  | authenticationFailed
  | apiRequestFailed (status : Option Nat) (message : String)
  deriving Repr, DecidableEq

/-- The `error.message` string of each thrown `Error`, exactly as built by
the corresponding `throw` site in `src/api/gcr.js`. -/
def renderMessage : GcrError → String
  | .csrfMismatch => "Invalid state parameter - possible CSRF attack"
  | .tokenExchangeFailed d => "Token exchange failed: " ++ d
  | .noRefreshToken => "No refresh token available. Please re-authorize."
  | .refreshFailed d => "Token refresh failed: " ++ d ++ ". Please re-authorize."
  | .notAuthorized => "No access token available. Please authorize first."
  | .authenticationFailed => "Authentication failed. Please re-authorize."
  | .apiRequestFailed none msg => "API request failed: " ++ msg
  | .apiRequestFailed (some s) msg =>
      "API request failed (" ++ toString s ++ "): " ++ msg

/-- Error detail extracted by the token-endpoint `catch` blocks:
`error.response?.data?.error_description || error.response?.data?.error ||
error.message`. -/
def oauthErrorMsg (e : HttpFailure) : String :=
  if truthy e.error_description then e.error_description.getD "" else
  if truthy e.errorField then e.errorField.getD "" else e.message

/-- Error detail extracted by the generic handler in `makeRequest`:
`error.response?.data?.error?.message || error.response?.data?.message ||
error.message`. -/
def apiErrorMsg (e : HttpFailure) : String :=
  if truthy e.errorMessage then e.errorMessage.getD "" else
  if truthy e.dataMessage then e.dataMessage.getD "" else e.message

/-- `saveTokensToStorage(accessToken, refreshToken, expiresIn)`: sets the
three in-memory fields (the refresh-token field is overwritten even by an
absent value) and writes `localStorage`, where the refresh token entry is
written only when the value is truthy. -/
def saveTokensToStorage (st : ClientState) (accessToken : String)
    (refreshToken : Option String) (expiresIn : Nat) (now : Nat) : ClientState :=
  { st with
    accessToken := some accessToken
    refreshToken := refreshToken
    tokenExpiry := some (now + expiresIn * 1000)
    storage :=
      { access := some accessToken
        refresh := if truthy refreshToken then refreshToken else st.storage.refresh
        expiry := some (toString (now + expiresIn * 1000)) } }

/-- `clearTokens()`: nulls the three in-memory fields and removes the three
`localStorage` entries.  The `sessionStorage` nonce is untouched. -/
def clearTokens (st : ClientState) : ClientState :=
  { st with
    accessToken := none
    refreshToken := none
    tokenExpiry := none
    storage := { access := none, refresh := none, expiry := none } }

/-- `isTokenExpired()`: true when `tokenExpiry` is falsy (absent or `0`), or
`Date.now() >= tokenExpiry - 60000`. -/
def isTokenExpired (st : ClientState) (now : Nat) : Bool :=
  match st.tokenExpiry with
  | none => true
  | some e => if e = 0 then true else decide (e - 60000 ≤ now)

/-- Outcome of an operation returning a token response: the result, the
state afterward, and how many token-endpoint network calls were made. -/
structure TokenOpResult where
  result : Except GcrError TokenResponse
  state : ClientState
  networkCalls : Nat

/-- `handleCallback(code, state)`: compares `state` against the stored
nonce; on mismatch throws the CSRF error (before the nonce-removal line, so
the nonce survives) with no network call; on match removes the nonce and
performs the authorization-code exchange (`exchange` is that network call's
outcome), saving tokens on success and throwing `TokenExchangeFailed` on
failure. -/
def handleCallback (st : ClientState) (_code state : String)
    (exchange : Except HttpFailure TokenResponse) (now : Nat) : TokenOpResult :=
  if st.oauthState ≠ some state then
    { result := .error .csrfMismatch, state := st, networkCalls := 0 }
  else
    let st1 := { st with oauthState := none }
    match exchange with
    | .ok resp =>
        { result := .ok resp
          state := saveTokensToStorage st1 resp.access_token resp.refresh_token
            resp.expires_in now
          networkCalls := 1 }
    | .error e =>
        { result := .error (.tokenExchangeFailed (oauthErrorMsg e))
          state := st1
          networkCalls := 1 }

/-- `refreshAccessToken()`: throws `NoRefreshToken` when the stored refresh
token is falsy, before any network call; otherwise performs the
refresh-token exchange (`exchange` is its outcome).  On success it saves the
new access token, `refresh_token || this.refreshToken`, and the new expiry;
on failure it clears all tokens and throws `RefreshFailed`. -/
def refreshAccessToken (st : ClientState)
    (exchange : Except HttpFailure TokenResponse) (now : Nat) : TokenOpResult :=
  if ¬ truthy st.refreshToken then
    { result := .error .noRefreshToken, state := st, networkCalls := 0 }
  else
    match exchange with
    | .ok resp =>
        { result := .ok resp
          state := saveTokensToStorage st resp.access_token
            (jsOr resp.refresh_token st.refreshToken) resp.expires_in now
          networkCalls := 1 }
    | .error e =>
        { result := .error (.refreshFailed (oauthErrorMsg e))
          state := clearTokens st
          networkCalls := 1 }

/-- Outcome of `ensureValidToken`: the token returned (the value of
`this.accessToken` at the `return`), the state afterward, and how many times
`refreshAccessToken` was invoked. -/
structure EnsureResult where
  result : Except GcrError (Option String)
  state : ClientState
  refreshCalls : Nat

/-- `ensureValidToken()`: throws `NotAuthorized` when the in-memory access
token is falsy; refreshes when `isTokenExpired()`, propagating any refresh
error; returns `this.accessToken` (the refreshed one after a refresh). -/
def ensureValidToken (st : ClientState) (now : Nat)
    (exchange : Except HttpFailure TokenResponse) : EnsureResult :=
  if ¬ truthy st.accessToken then
    { result := .error .notAuthorized, state := st, refreshCalls := 0 }
  else if isTokenExpired st now then
    let r := refreshAccessToken st exchange now
    match r.result with
    | .error e => { result := .error e, state := r.state, refreshCalls := 1 }
    | .ok _ => { result := .ok r.state.accessToken, state := r.state, refreshCalls := 1 }
  else
    { result := .ok st.accessToken, state := st, refreshCalls := 0 }

/-- A request descriptor `\x7bendpoint, method, body?, headers?\x7d` as passed to
`makeRequest`.  Extra headers are an association list in object-spread
order. -/
structure RequestDescriptor where
  endpoint : String
  method : String := "GET"
  body : Option String := none
  headers : List (String × String) := []
  deriving Repr, DecidableEq

/-- The `axios` request configuration built by `makeRequest` (both for the
first attempt and for the retry).  Headers are listed in spread order, later
entries overriding earlier ones. -/
structure RequestConfig where
  url : String
  method : String
  headers : List (String × String)
  data : Option String
  deriving Repr, DecidableEq

/-- Builds the request configuration: uppercased method, the base
`Authorization` / `Content-Type` headers followed by the caller's headers,
and a body only for POST / PUT / PATCH when one is present. -/
def buildConfig (desc : RequestDescriptor) (token : Option String) : RequestConfig :=
  let m := desc.method.toUpper
  { url := desc.endpoint
    method := m
    headers :=
      ("Authorization", "Bearer " ++ token.getD "undefined") ::
      ("Content-Type", "application/json") :: desc.headers
    data :=
      if desc.body.isSome && (m == "POST" || m == "PUT" || m == "PATCH")
        then desc.body else none }

/-- Outcome of `makeRequest`: the result (a 2xx response body or an error),
the state afterward, the number of `refreshAccessToken` invocations, and the
list of outbound API request configurations actually issued, in order. -/
structure RequestResult where
  result : Except GcrError String
  state : ClientState
  refreshCalls : Nat
  issued : List RequestConfig

/-- `makeRequest(\x7bendpoint, method, body, headers\x7d)`.  The whole body runs
inside one `try`; the `catch` at the end receives both `axios` rejections
and the errors thrown by `ensureValidToken`.  An error from
`ensureValidToken` has no `.response`, so the 401 test fails on it and it
falls through to the generic handler: `statusCode` is absent and `errorMsg`
is the thrown error's `.message`, yielding a wrapped `ApiRequestFailed`.  A
401 response triggers exactly one forced refresh followed by one reissue of
the same descriptor, and every failure inside that retry block (a failed
refresh, or any rejection of the retried call) is swallowed into
`AuthenticationFailed`.  Other non-2xx statuses reach the generic handler
with their status and extracted message.  `ensureExchange` is the
token-endpoint outcome consumed if `ensureValidToken` refreshes,
`firstCall` the first outbound call's outcome, `retryExchange` the
token-endpoint outcome consumed by the post-401 refresh, and `retryCall`
the retried call's outcome. -/
def makeRequest (st : ClientState) (now : Nat) (desc : RequestDescriptor)
    (ensureExchange : Except HttpFailure TokenResponse)
    (firstCall : Except HttpFailure String)
    (retryExchange : Except HttpFailure TokenResponse)
    (retryCall : Except HttpFailure String) : RequestResult :=
  let ev := ensureValidToken st now ensureExchange
  match ev.result with
  | .error e =>
      { result := .error (.apiRequestFailed none (renderMessage e))
        state := ev.state
        refreshCalls := ev.refreshCalls
        issued := [] }
  | .ok token =>
      let config := buildConfig desc token
      match firstCall with
      | .ok body =>
          { result := .ok body, state := ev.state
            refreshCalls := ev.refreshCalls, issued := [config] }
      | .error e =>
          if e.status = some 401 then
            let r := refreshAccessToken ev.state retryExchange now
            match r.result with
            | .error _ =>
                { result := .error .authenticationFailed, state := r.state
                  refreshCalls := ev.refreshCalls + 1, issued := [config] }
            | .ok _ =>
                let config2 := buildConfig desc r.state.accessToken
                match retryCall with
                | .ok body =>
                    { result := .ok body, state := r.state
                      refreshCalls := ev.refreshCalls + 1
                      issued := [config, config2] }
                | .error _ =>
                    { result := .error .authenticationFailed, state := r.state
                      refreshCalls := ev.refreshCalls + 1
                      issued := [config, config2] }
          else
            { result := .error (.apiRequestFailed e.status (apiErrorMsg e))
              state := ev.state
              refreshCalls := ev.refreshCalls
              issued := [config] }

/-- A consistent state holding a fresh, far-from-expiry token set. -/
def stFresh : ClientState :=
  { accessToken := some "tokA"
    refreshToken := some "refA"
    tokenExpiry := some 10000000
    storage := { access := some "tokA", refresh := some "refA", expiry := some "10000000" }
    oauthState := none }

/-- A state whose access token expired long ago but still holds a refresh
token. -/
def stStale : ClientState :=
  { accessToken := some "tokA"
    refreshToken := some "refA"
    tokenExpiry := some 1000
    storage := { access := some "tokA", refresh := some "refA", expiry := some "1000" }
    oauthState := none }

/-- A completely empty client state. -/
def stEmpty : ClientState :=
  { accessToken := none, refreshToken := none, tokenExpiry := none
    storage := { access := none, refresh := none, expiry := none }
    oauthState := none }

/-- An empty state holding a stored OAuth nonce. -/
def stNonce : ClientState := { stEmpty with oauthState := some "nonce1" }

/-- A provider rejection of a token-endpoint call with `invalid_grant`. -/
def failInvalidGrant : HttpFailure :=
  { status := some 400, error_description := none, errorField := some "invalid_grant"
    errorMessage := none, dataMessage := none
    message := "Request failed with status code 400" }

/-- A 401 rejection of an outbound API call. -/
def fail401 : HttpFailure :=
  { status := some 401, error_description := none, errorField := none
    errorMessage := some "Invalid Credentials", dataMessage := none
    message := "Request failed with status code 401" }

/-- A 403 rejection of an outbound API call. -/
def fail403 : HttpFailure :=
  { status := some 403, error_description := none, errorField := none
    errorMessage := some "Insufficient Permission", dataMessage := none
    message := "Request failed with status code 403" }

/-- A 500 rejection of an outbound API call. -/
def fail500 : HttpFailure :=
  { status := some 500, error_description := none, errorField := none
    errorMessage := none, dataMessage := some "Backend Error"
    message := "Request failed with status code 500" }

/-- A refresh response carrying a new access token and no refresh token. -/
def respB : TokenResponse :=
  { access_token := "tokB", refresh_token := none, expires_in := 3600 }

/-- A plain GET descriptor. -/
def descGet : RequestDescriptor :=
  { endpoint := "https://classroom.googleapis.com/v1/courses" }

/-- Helper: an absent string is falsy. -/
theorem truthy_none : truthy none = false := rfl

/-- Helper: when `refreshAccessToken` succeeds with response `resp`, the
resulting in-memory access token is `resp.access_token`. -/
theorem refresh_ok_accessToken (st : ClientState)
    (exchange : Except HttpFailure TokenResponse) (now : Nat) (resp : TokenResponse)
    (h : (refreshAccessToken st exchange now).result = .ok resp) :
    (refreshAccessToken st exchange now).state.accessToken = some resp.access_token := by
  unfold refreshAccessToken at h ⊢
  by_cases hrt : truthy st.refreshToken
  · cases exchange with
    | ok r =>
        simp [hrt] at h ⊢
        subst h
        simp [saveTokensToStorage]
    | error e => simp [hrt] at h
  · simp [hrt] at h

/-- Claim C7: `isTokenExpired` returns true exactly when no expiry timestamp
is recorded or the recorded expiry is at most `now + 60000` milliseconds
(the 60-second safety buffer); equivalently it is false exactly when the
expiry exceeds `now + 60s`. -/
theorem isTokenExpired_spec (st : ClientState) (now : Nat) :
    isTokenExpired st now = true ↔
      st.tokenExpiry = none ∨ ∃ e, st.tokenExpiry = some e ∧ e ≤ now + 60000 := by
  unfold isTokenExpired
  cases h : st.tokenExpiry with
  | none => simp
  | some e =>
      by_cases h0 : e = 0 <;> simp [h0]

/-- Claim C10: with no (truthy) refresh token stored, `refreshAccessToken`
fails with `NoRefreshToken` before making any network call and leaves the
entire state — in-memory token fields and persistent storage — completely
unchanged. -/
theorem refresh_no_token_spec (st : ClientState)
    (exchange : Except HttpFailure TokenResponse) (now : Nat)
    (h : truthy st.refreshToken = false) :
    refreshAccessToken st exchange now =
      { result := .error .noRefreshToken, state := st, networkCalls := 0 } := by
  unfold refreshAccessToken
  simp [h]

/-- Witness for C10 at the empty state. -/
theorem refresh_no_token_spec_witness :
    refreshAccessToken stEmpty (.error failInvalidGrant) 0 =
      { result := .error .noRefreshToken, state := stEmpty, networkCalls := 0 } :=
  refresh_no_token_spec stEmpty (.error failInvalidGrant) 0 rfl

/-- Claim C6: a successful refresh stores the new access token and the newly
computed expiry, in memory and in storage; the stored refresh token equals
the provider-supplied `refresh_token` when the response includes a
(nonempty) one, and otherwise the refresh token held before the refresh is
retained. -/
theorem refresh_success_tokens_spec (st : ClientState) (resp : TokenResponse)
    (now : Nat) (h : truthy st.refreshToken = true) :
    (refreshAccessToken st (.ok resp) now).result = .ok resp ∧
    (refreshAccessToken st (.ok resp) now).networkCalls = 1 ∧
    (refreshAccessToken st (.ok resp) now).state.accessToken
        = some resp.access_token ∧
    (refreshAccessToken st (.ok resp) now).state.tokenExpiry
        = some (now + resp.expires_in * 1000) ∧
    (refreshAccessToken st (.ok resp) now).state.storage.access
        = some resp.access_token ∧
    (refreshAccessToken st (.ok resp) now).state.storage.expiry
        = some (toString (now + resp.expires_in * 1000)) ∧
    (∀ rt, resp.refresh_token = some rt → rt ≠ "" →
        (refreshAccessToken st (.ok resp) now).state.refreshToken = some rt ∧
        (refreshAccessToken st (.ok resp) now).state.storage.refresh = some rt) ∧
    (resp.refresh_token = none →
        (refreshAccessToken st (.ok resp) now).state.refreshToken
            = st.refreshToken ∧
        (refreshAccessToken st (.ok resp) now).state.storage.refresh
            = st.refreshToken) := by
  unfold refreshAccessToken saveTokensToStorage
  simp [h, jsOr]
  constructor
  · intro rt hrt hne
    simp [hrt, truthy, hne]
  · intro hnone
    simp [hnone, truthy_none, h]

/-- Witness for C6: refreshing `stStale` with a response omitting the
refresh token retains "refA". -/
theorem refresh_success_tokens_spec_witness :
    (refreshAccessToken stStale (.ok respB) 0).state.accessToken = some "tokB" ∧
    (refreshAccessToken stStale (.ok respB) 0).state.refreshToken = some "refA" ∧
    (refreshAccessToken stStale (.ok respB) 0).state.storage.refresh = some "refA" ∧
    (refreshAccessToken stStale (.ok respB) 0).state.tokenExpiry = some 3600000 := by
  have h := refresh_success_tokens_spec stStale respB 0 rfl
  exact ⟨h.2.2.1, (h.2.2.2.2.2.2.2 rfl).1, (h.2.2.2.2.2.2.2 rfl).2, h.2.2.2.1⟩

/-- Claim C8: `ensureValidToken` fails with `NotAuthorized` when no access
token is stored (no state change, no refresh); with a stored expired token
it invokes `refreshAccessToken` exactly once and propagates its outcome,
returning the refreshed access token on success; with a stored unexpired
token it returns the stored access token with no refresh invocation and no
state change. -/
theorem ensureValidToken_spec (st : ClientState) (now : Nat)
    (exchange : Except HttpFailure TokenResponse) :
    (truthy st.accessToken = false →
        ensureValidToken st now exchange =
          { result := .error .notAuthorized, state := st, refreshCalls := 0 }) ∧
    (truthy st.accessToken = true → isTokenExpired st now = true →
        ∀ e, (refreshAccessToken st exchange now).result = .error e →
          ensureValidToken st now exchange =
            { result := .error e
              state := (refreshAccessToken st exchange now).state
              refreshCalls := 1 }) ∧
    (truthy st.accessToken = true → isTokenExpired st now = true →
        ∀ resp, (refreshAccessToken st exchange now).result = .ok resp →
          ensureValidToken st now exchange =
            { result := .ok (some resp.access_token)
              state := (refreshAccessToken st exchange now).state
              refreshCalls := 1 }) ∧
    (truthy st.accessToken = true → isTokenExpired st now = false →
        ensureValidToken st now exchange =
          { result := .ok st.accessToken, state := st, refreshCalls := 0 }) := by
  refine ⟨?_, ?_, ?_, ?_⟩
  · intro h
    unfold ensureValidToken
    simp [h]
  · intro h hx e he
    unfold ensureValidToken
    simp [h, hx, he]
  · intro h hx resp hr
    unfold ensureValidToken
    simp [h, hx, hr, refresh_ok_accessToken st exchange now resp hr]
  · intro h hx
    unfold ensureValidToken
    simp [h, hx]

/-- Witness for C8: an unexpired token is returned untouched, an expired one
triggers refresh, an absent one yields NotAuthorized. -/
theorem ensureValidToken_spec_witness :
    ensureValidToken stFresh 0 (.error failInvalidGrant) =
      { result := .ok (some "tokA"), state := stFresh, refreshCalls := 0 } ∧
    ensureValidToken stStale 10000000 (.ok respB) =
      { result := .ok (some "tokB")
        state := (refreshAccessToken stStale (.ok respB) 10000000).state
        refreshCalls := 1 } ∧
    ensureValidToken stEmpty 0 (.ok respB) =
      { result := .error .notAuthorized, state := stEmpty, refreshCalls := 0 } :=
  ⟨(ensureValidToken_spec stFresh 0 (.error failInvalidGrant)).2.2.2 rfl rfl,
   (ensureValidToken_spec stStale 10000000 (.ok respB)).2.2.1 rfl rfl respB rfl,
   (ensureValidToken_spec stEmpty 0 (.ok respB)).1 rfl⟩

/-- Claim C9: `handleCallback` with a state that does not equal the stored
nonce fails with `CsrfMismatch`, makes zero network calls and changes
nothing; when the state matches but the token-endpoint exchange fails, it
fails with `TokenExchangeFailed` carrying the provider's error detail and
the TokenSet (all token fields and storage) is left unchanged — only the
nonce is consumed. -/
theorem handleCallback_failure_spec (st : ClientState) (code state : String)
    (exchange : Except HttpFailure TokenResponse) (now : Nat) :
    (st.oauthState ≠ some state →
        handleCallback st code state exchange now =
          { result := .error .csrfMismatch, state := st, networkCalls := 0 }) ∧
    (∀ e, st.oauthState = some state → exchange = .error e →
        handleCallback st code state exchange now =
          { result := .error (.tokenExchangeFailed (oauthErrorMsg e))
            state := { st with oauthState := none }
            networkCalls := 1 }) := by
  constructor
  · intro h
    unfold handleCallback
    simp [h]
  · intro e h he
    unfold handleCallback
    simp [h, he]

/-- Witness for C9: a wrong state yields CsrfMismatch with zero network
calls; a failing exchange yields TokenExchangeFailed with the provider
detail and an untouched TokenSet. -/
theorem handleCallback_failure_spec_witness :
    handleCallback stNonce "x" "wrong" (.ok respB) 0 =
      { result := .error .csrfMismatch, state := stNonce, networkCalls := 0 } ∧
    handleCallback stNonce "x" "nonce1" (.error failInvalidGrant) 0 =
      { result := .error (.tokenExchangeFailed "invalid_grant")
        state := { stNonce with oauthState := none }
        networkCalls := 1 } :=
  ⟨(handleCallback_failure_spec stNonce "x" "wrong" (.ok respB) 0).1 (by decide),
   (handleCallback_failure_spec stNonce "x" "nonce1" (.error failInvalidGrant) 0).2
     failInvalidGrant rfl rfl⟩

/-- Claim C1 counterexample: with an expired token whose refresh fails with
`invalid_grant`, `ensureValidToken` throws `RefreshFailed "invalid_grant"`,
but `makeRequest` does not surface that error unchanged — its `catch` wraps
it into `ApiRequestFailed` (no status) whose message embeds the original
text.  The token store is indeed empty afterward. -/
theorem makeRequest_wrap_cex :
    (ensureValidToken stStale 10000000 (.error failInvalidGrant)).result
        = .error (.refreshFailed "invalid_grant") ∧
    (makeRequest stStale 10000000 descGet (.error failInvalidGrant)
        (.ok "r1") (.ok respB) (.ok "r2")).result
        = .error (.apiRequestFailed none
            "Token refresh failed: invalid_grant. Please re-authorize.") ∧
    GcrError.apiRequestFailed none
        "Token refresh failed: invalid_grant. Please re-authorize."
      ≠ GcrError.refreshFailed "invalid_grant" ∧
    (makeRequest stStale 10000000 descGet (.error failInvalidGrant)
        (.ok "r1") (.ok respB) (.ok "r2")).state = clearTokens stStale ∧
    (clearTokens stStale).storage
        = { access := none, refresh := none, expiry := none } :=
  ⟨rfl, rfl, by decide, rfl, rfl⟩

/-- Claim C1 amended: when the initial `ensureValidToken` fails,
`makeRequest` fails with `ApiRequestFailed` carrying no status and the
message "API request failed: " followed by the original error's message; no
outbound call is issued and the state is exactly what `ensureValidToken`
left behind — in particular, for an expired token whose refresh fails, the
token store has been cleared. -/
theorem makeRequest_ensure_error_amended (st : ClientState) (now : Nat)
    (desc : RequestDescriptor) (exchange : Except HttpFailure TokenResponse)
    (firstCall : Except HttpFailure String)
    (retryExchange : Except HttpFailure TokenResponse)
    (retryCall : Except HttpFailure String) (e : GcrError)
    (h : (ensureValidToken st now exchange).result = .error e) :
    makeRequest st now desc exchange firstCall retryExchange retryCall =
      { result := .error (.apiRequestFailed none (renderMessage e))
        state := (ensureValidToken st now exchange).state
        refreshCalls := (ensureValidToken st now exchange).refreshCalls
        issued := [] } ∧
    (∀ d, truthy st.accessToken = true → isTokenExpired st now = true →
        truthy st.refreshToken = true → exchange = .error d →
        (ensureValidToken st now exchange).state = clearTokens st) := by
  constructor
  · unfold makeRequest
    simp [h]
  · intro d h1 h2 h3 h4
    unfold ensureValidToken refreshAccessToken
    simp [h1, h2, h3, h4]

/-- Witness for C1 amended: the failed-refresh scenario wrapped into an
`ApiRequestFailed` with the cleared state. -/
theorem makeRequest_ensure_error_amended_witness :
    makeRequest stStale 10000000 descGet (.error failInvalidGrant)
        (.ok "r1") (.ok respB) (.ok "r2") =
      { result := .error (.apiRequestFailed none
            "Token refresh failed: invalid_grant. Please re-authorize.")
        state := clearTokens stStale
        refreshCalls := 1
        issued := [] } := by
  have h := makeRequest_ensure_error_amended stStale 10000000 descGet
    (.error failInvalidGrant) (.ok "r1") (.ok respB) (.ok "r2")
    (.refreshFailed "invalid_grant") rfl
  rw [h.1]
  rfl

/-- Claim C2 counterexample: with nonce "nonce1" stored, a callback whose
state fails the comparison throws `CsrfMismatch` but leaves the nonce
stored — the nonce is not deleted on that validation attempt, contradicting
"deleted regardless of whether the state comparison succeeds or fails". -/
theorem handleCallback_nonce_retained_cex :
    (handleCallback stNonce "c" "wrong" (.ok respB) 0).result
        = .error .csrfMismatch ∧
    (handleCallback stNonce "c" "wrong" (.ok respB) 0).state.oauthState
        = some "nonce1" ∧
    stNonce.oauthState = some "nonce1" :=
  ⟨rfl, rfl, rfl⟩

/-- Claim C2 amended: the stored nonce is deleted only when the state
comparison succeeds (on mismatch it is retained untouched); consequently,
after a first `handleCallback` whose state matched the stored nonce, a
second `handleCallback` with the same state fails with `CsrfMismatch` and
performs zero network calls. -/
theorem handleCallback_nonce_amended (st : ClientState) (c1 c2 s t : String)
    (ex1 ex2 : Except HttpFailure TokenResponse) (now1 now2 : Nat) :
    (st.oauthState = some s →
        (handleCallback st c1 s ex1 now1).state.oauthState = none ∧
        handleCallback (handleCallback st c1 s ex1 now1).state c2 s ex2 now2 =
          { result := .error .csrfMismatch
            state := (handleCallback st c1 s ex1 now1).state
            networkCalls := 0 }) ∧
    (st.oauthState ≠ some t →
        (handleCallback st c1 t ex1 now1).state.oauthState = st.oauthState) := by
  constructor
  · intro h
    have hnonce : (handleCallback st c1 s ex1 now1).state.oauthState = none := by
      unfold handleCallback
      cases ex1 with
      | ok r => simp [h, saveTokensToStorage]
      | error e => simp [h]
    refine ⟨hnonce, ?_⟩
    generalize hS : (handleCallback st c1 s ex1 now1).state = S at hnonce ⊢
    unfold handleCallback
    simp [hnonce]
  · intro h
    unfold handleCallback
    simp [h]

/-- Witness for C2 amended: consuming "nonce1" then replaying the same
state fails with `CsrfMismatch` and zero network calls. -/
theorem handleCallback_nonce_amended_witness :
    (handleCallback stNonce "x" "nonce1" (.ok respB) 0).state.oauthState = none ∧
    handleCallback (handleCallback stNonce "x" "nonce1" (.ok respB) 0).state
        "x" "nonce1" (.ok respB) 5 =
      { result := .error .csrfMismatch
        state := (handleCallback stNonce "x" "nonce1" (.ok respB) 0).state
        networkCalls := 0 } :=
  (handleCallback_nonce_amended stNonce "x" "x" "nonce1" "w" (.ok respB)
    (.ok respB) 0 5).1 rfl

/-- Claim C3 counterexample: a 403 on the post-401 retried attempt yields
`AuthenticationFailed`, not `ApiRequestFailed` with status 403 and its
message, contradicting "whether it occurs on the first attempt or on the
post-401 retried attempt". -/
theorem makeRequest_retry_non401_cex :
    (makeRequest stFresh 0 descGet (.ok respB) (.error fail401) (.ok respB)
        (.error fail403)).result = .error .authenticationFailed ∧
    GcrError.authenticationFailed
      ≠ GcrError.apiRequestFailed (some 403) (apiErrorMsg fail403) :=
  ⟨rfl, by decide⟩

/-- Claim C3 amended: on the first attempt every non-2xx status other than
401 yields `ApiRequestFailed` carrying that status and extracted message,
with no retry (exactly one outbound call); on the post-401 retried attempt
any rejection — whatever its status — yields `AuthenticationFailed`, and no
further retry occurs (exactly two outbound calls in total). -/
theorem makeRequest_non2xx_amended (st : ClientState) (now : Nat)
    (desc : RequestDescriptor)
    (exchange retryExchange : Except HttpFailure TokenResponse)
    (e e2 : HttpFailure) (tok : Option String) :
    ((ensureValidToken st now exchange).result = .ok tok → e.status ≠ some 401 →
        ∀ retryCall,
        (makeRequest st now desc exchange (.error e) retryExchange retryCall).result
            = .error (.apiRequestFailed e.status (apiErrorMsg e)) ∧
        (makeRequest st now desc exchange (.error e) retryExchange retryCall).issued
            = [buildConfig desc tok]) ∧
    ((ensureValidToken st now exchange).result = .ok tok → e.status = some 401 →
        ∀ resp, (refreshAccessToken (ensureValidToken st now exchange).state
            retryExchange now).result = .ok resp →
        (makeRequest st now desc exchange (.error e) retryExchange (.error e2)).result
            = .error .authenticationFailed ∧
        (makeRequest st now desc exchange (.error e) retryExchange
            (.error e2)).issued.length = 2) := by
  constructor
  · intro hok h401 retryCall
    unfold makeRequest
    simp [hok, h401]
  · intro hok h401 resp hr
    unfold makeRequest
    simp [hok, h401, hr]

/-- Witness for C3 amended: a 500 on the first attempt yields
`ApiRequestFailed (some 500)` with one outbound call; a 403 on the retried
attempt yields `AuthenticationFailed` with two outbound calls. -/
theorem makeRequest_non2xx_amended_witness :
    (makeRequest stFresh 0 descGet (.ok respB) (.error fail500) (.ok respB)
        (.ok "r2")).result
      = .error (.apiRequestFailed (some 500) "Backend Error") ∧
    (makeRequest stFresh 0 descGet (.ok respB) (.error fail500) (.ok respB)
        (.ok "r2")).issued = [buildConfig descGet (some "tokA")] ∧
    (makeRequest stFresh 0 descGet (.ok respB) (.error fail401) (.ok respB)
        (.error fail403)).result = .error .authenticationFailed ∧
    (makeRequest stFresh 0 descGet (.ok respB) (.error fail401) (.ok respB)
        (.error fail403)).issued.length = 2 := by
  have h1 := (makeRequest_non2xx_amended stFresh 0 descGet (.ok respB) (.ok respB)
    fail500 fail403 (some "tokA")).1 rfl (by decide) (.ok "r2")
  have h2 := (makeRequest_non2xx_amended stFresh 0 descGet (.ok respB) (.ok respB)
    fail401 fail403 (some "tokA")).2 rfl rfl respB rfl
  exact ⟨h1.1, h1.2, h2.1, h2.2⟩

/-- Claim C4: on a 401 first response, exactly one retry happens — the
refresh is forced even for an unexpired-looking token, the identical
descriptor is reissued once with the refreshed token, a 2xx retry resolves
with the retried body (one refresh, two outbound calls in total from an
unexpired state), and a failed refresh or any rejected retry yields
`AuthenticationFailed`. -/
theorem makeRequest_401_retry_spec (st : ClientState) (now : Nat)
    (desc : RequestDescriptor)
    (exchange retryExchange : Except HttpFailure TokenResponse)
    (e : HttpFailure) (tok : Option String)
    (hok : (ensureValidToken st now exchange).result = .ok tok)
    (h401 : e.status = some 401) :
    (∀ resp body,
        (refreshAccessToken (ensureValidToken st now exchange).state
            retryExchange now).result = .ok resp →
        makeRequest st now desc exchange (.error e) retryExchange (.ok body) =
          { result := .ok body
            state := (refreshAccessToken (ensureValidToken st now exchange).state
                retryExchange now).state
            refreshCalls := (ensureValidToken st now exchange).refreshCalls + 1
            issued := [buildConfig desc tok,
                       buildConfig desc (some resp.access_token)] }) ∧
    (∀ e2, (refreshAccessToken (ensureValidToken st now exchange).state
            retryExchange now).result = .error e2 →
        ∀ retryCall,
        (makeRequest st now desc exchange (.error e) retryExchange retryCall).result
            = .error .authenticationFailed ∧
        (makeRequest st now desc exchange (.error e) retryExchange retryCall).issued
            = [buildConfig desc tok]) ∧
    (∀ resp e2,
        (refreshAccessToken (ensureValidToken st now exchange).state
            retryExchange now).result = .ok resp →
        (makeRequest st now desc exchange (.error e) retryExchange (.error e2)).result
            = .error .authenticationFailed) ∧
    (truthy st.accessToken = true → isTokenExpired st now = false →
        ∀ retryCall,
        (makeRequest st now desc exchange (.error e) retryExchange
            retryCall).refreshCalls = 1) := by
  refine ⟨?_, ?_, ?_, ?_⟩
  · intro resp body hr
    unfold makeRequest
    simp [hok, h401, hr,
      refresh_ok_accessToken (ensureValidToken st now exchange).state
        retryExchange now resp hr]
  · intro e2 hr retryCall
    unfold makeRequest
    simp [hok, h401, hr]
  · intro resp e2 hr
    unfold makeRequest
    simp [hok, h401, hr]
  · intro h1 h2 retryCall
    have hev : ensureValidToken st now exchange =
        { result := .ok st.accessToken, state := st, refreshCalls := 0 } :=
      (ensureValidToken_spec st now exchange).2.2.2 h1 h2
    unfold makeRequest
    rw [hev]
    cases hres : (refreshAccessToken st retryExchange now).result with
    | ok r => cases retryCall <;> simp [h401, hres]
    | error er => simp [h401, hres]

/-- Witness for C4: the spec's scenario — 401 first, refresh succeeds, the
retry returns 200 with the JSON body — resolves with that body after
exactly one refresh and two outbound calls on the identical descriptor. -/
theorem makeRequest_401_retry_spec_witness :
    makeRequest stFresh 0 descGet (.ok respB) (.error fail401) (.ok respB)
        (.ok "\x7b\"id\":1\x7d") =
      { result := .ok "\x7b\"id\":1\x7d"
        state := (refreshAccessToken stFresh (.ok respB) 0).state
        refreshCalls := 1
        issued := [buildConfig descGet (some "tokA"),
                   buildConfig descGet (some "tokB")] } := by
  have h := (makeRequest_401_retry_spec stFresh 0 descGet (.ok respB) (.ok respB)
    fail401 (some "tokA") rfl rfl).1 respB "\x7b\"id\":1\x7d" rfl
  rw [h]
  rfl

/-- Claim C5 counterexample: an error path that mutates state other than by
clearing it — `makeRequest` hits a 401, the forced refresh succeeds and
persists a new TokenSet, then the retry fails with 500; the call fails with
`AuthenticationFailed` while the state has been mutated (new access token)
and is neither the original state nor the cleared state. -/
theorem error_path_mutation_cex :
    (makeRequest stFresh 0 descGet (.ok respB) (.error fail401) (.ok respB)
        (.error fail500)).result = .error .authenticationFailed ∧
    (makeRequest stFresh 0 descGet (.ok respB) (.error fail401) (.ok respB)
        (.error fail500)).state.accessToken = some "tokB" ∧
    stFresh.accessToken = some "tokA" ∧
    (makeRequest stFresh 0 descGet (.ok respB) (.error fail401) (.ok respB)
        (.error fail500)).state ≠ stFresh ∧
    (makeRequest stFresh 0 descGet (.ok respB) (.error fail401) (.ok respB)
        (.error fail500)).state ≠ clearTokens stFresh :=
  ⟨rfl, rfl, rfl, by decide, by decide⟩

/-- Claim C5 amended: when the refresh exchange fails, the entire TokenSet —
in memory and in storage — is cleared and the operation fails with
`RefreshFailed` carrying the provider's error detail; the error paths of
`refreshAccessToken`, `ensureValidToken` and `handleCallback` perform no
other TokenSet mutation (the TokenSet is otherwise left unchanged), but
`makeRequest`'s post-401 recovery may persist a successfully refreshed
TokenSet before the overall call fails with `AuthenticationFailed`. -/
theorem refresh_failure_clears_amended (st : ClientState) (e : HttpFailure)
    (now : Nat) (code state : String) :
    (truthy st.refreshToken = true →
        refreshAccessToken st (.error e) now =
          { result := .error (.refreshFailed (oauthErrorMsg e))
            state := clearTokens st, networkCalls := 1 } ∧
        (clearTokens st).accessToken = none ∧
        (clearTokens st).refreshToken = none ∧
        (clearTokens st).tokenExpiry = none ∧
        (clearTokens st).storage
            = { access := none, refresh := none, expiry := none }) ∧
    (truthy st.refreshToken = false →
        refreshAccessToken st (.error e) now =
          { result := .error .noRefreshToken, state := st, networkCalls := 0 }) ∧
    (truthy st.accessToken = false →
        ensureValidToken st now (.error e) =
          { result := .error .notAuthorized, state := st, refreshCalls := 0 }) ∧
    ((handleCallback st code state (.error e) now).state.accessToken
        = st.accessToken ∧
     (handleCallback st code state (.error e) now).state.refreshToken
        = st.refreshToken ∧
     (handleCallback st code state (.error e) now).state.tokenExpiry
        = st.tokenExpiry ∧
     (handleCallback st code state (.error e) now).state.storage
        = st.storage) := by
  refine ⟨?_, ?_, ?_, ?_⟩
  · intro h
    unfold refreshAccessToken
    simp [h, clearTokens]
  · intro h
    unfold refreshAccessToken
    simp [h]
  · intro h
    unfold ensureValidToken
    simp [h]
  · unfold handleCallback
    by_cases h : st.oauthState ≠ some state <;> simp [h]

/-- Witness for C5 amended: a failed refresh from `stStale` clears every
token field and storage entry and carries the `invalid_grant` detail. -/
theorem refresh_failure_clears_amended_witness :
    refreshAccessToken stStale (.error failInvalidGrant) 0 =
      { result := .error (.refreshFailed "invalid_grant")
        state := clearTokens stStale, networkCalls := 1 } ∧
    (clearTokens stStale).storage
        = { access := none, refresh := none, expiry := none } := by
  have h := (refresh_failure_clears_amended stStale failInvalidGrant 0 "c" "s").1 rfl
  exact ⟨h.1, h.2.2.2.2⟩

end Gcr
